import Mathlib

/-!
Verification of the Catalog Store + Renderer fragment of the
Ecommerce-Platform repository, shallowly embedded in Lean 4.

The embedding follows the source fragment (`script .js`): a mutable
ordered collection of product records, per-product image/name resolution
for rendering, a one-shot image error fallback, and edit/delete event
handlers.  Parts of the program that the fragment elides (the body of
`isValidUrl`, the surrounding body of `renderProducts`, the
form-population logic of the edit handler) are modelled from the spec and
marked as such in their doc comments.
-/

namespace Catalog

/-- A product record, mirroring the object literals of the source.
`name` and `imageUrl` may be absent (`none`); JavaScript treats the empty
string as falsy, which the resolution functions below reproduce.  `price`
is a non-negative decimal amount; it plays no role in any behavior of the
fragment, so it is represented as a natural number of currency units. -/
structure Product where
  id : String
  name : Option String
  categoryId : String
  price : Nat
  imageUrl : Option String
  attributes : List (String × String)
deriving DecidableEq, Repr

/-- The sample product from the source's initial collection. -/
def sampleProduct : Product :=
  { id := "prod-dress-001"
  , name := some "Summer Floral Dress"
  , categoryId := "cat-dresses"
  , price := 3500
  , imageUrl := some "https://placehold.co/300x200/4CAF50/FFFFFF?text=Floral+Dress"
  , attributes := [("Style", "A-Line"), ("Material", "Cotton"), ("Length", "Knee-length")] }

/-- The fixed placeholder used when a product has no usable image URL. -/
def noImageUrl : String := "https://placehold.co/100x100/CCCCCC/666666?text=No+Image"

/-- The distinct placeholder substituted when the chosen image fails to load. -/
def imageErrorUrl : String := "https://placehold.co/150x100/CCCCCC/666666?text=Image+Error"

/-- A character allowed in a URL scheme after the leading letter. -/
def schemeRestChar (c : Char) : Bool :=
  c.isAlpha || c.isDigit || c == '+' || c == '-' || c == '.'

/-- Split a character list at the first colon, returning the parts before
and after it; `none` when no colon occurs. -/
def splitOnColon : List Char → Option (List Char × List Char)
  | [] => none
  | c :: cs =>
    if c = ':' then some ([], cs)
    else
      match splitOnColon cs with
      | some (a, b) => some (c :: a, b)
      | none => none

/-- A well-formed scheme: a leading ASCII letter followed by letters,
digits, `+`, `-` or `.`. -/
def schemeOk : List Char → Bool
  | [] => false
  | c :: cs => c.isAlpha && cs.all schemeRestChar

/-- A well-formed authority/path part: non-empty and free of whitespace. -/
def restOk (cs : List Char) : Bool :=
  !cs.isEmpty && cs.all (fun c => !c.isWhitespace)

/-- A structurally parsed URL: a scheme and the authority/path remainder. -/
structure Url where
  scheme : String
  rest : String
deriving DecidableEq, Repr

/-- Modelled from the spec: the body of `isValidUrl` is not in the shown
fragment (only its call site is).  Per the spec, validation is a pure
structural parse — scheme plus authority/path per the URL grammar, no
network or reachability check.  `parseUrl` returns the parsed components
when the string is well-formed and `none` otherwise. -/
def parseUrl (s : String) : Option Url :=
  match splitOnColon s.toList with
  | none => none
  | some (sch, rest) =>
    if schemeOk sch && restOk rest then
      some { scheme := String.mk sch, rest := String.mk rest }
    else none

/-- Modelled from the spec: `isValidUrl` returns true exactly when the
string parses as a structurally well-formed URL, and never raises —
malformed input simply yields `false`. -/
def isValidUrl (s : String) : Bool := (parseUrl s).isSome

/-- The image-source resolution of `renderProducts`, straight from the
source: `product.imageUrl && isValidUrl(product.imageUrl) ?
product.imageUrl : noImageUrl`.  An absent or empty `imageUrl` is falsy. -/
def resolveImageUrl (product : Product) : String :=
  match product.imageUrl with
  | none => noImageUrl
  | some u => if u != "" && isValidUrl u then u else noImageUrl

/-- The alt-text resolution from the source: `product.name || 'Product'`.
An absent or empty name falls back to the literal `"Product"`. -/
def displayName (product : Product) : String :=
  match product.name with
  | none => "Product"
  | some n => if n != "" then n else "Product"

/-- An image element: its current `src` and whether its `onerror` fallback
is still armed (`this.onerror` non-null in the source). -/
structure ImgElement where
  src : String
  onerror : Bool
deriving DecidableEq, Repr

/-- The `onerror` handler from the source, fired on a load failure:
`this.onerror=null;this.src=imageErrorUrl`.  It runs only while armed,
and disarms itself before substituting the error placeholder. -/
def fireError (el : ImgElement) : ImgElement :=
  if el.onerror then { src := imageErrorUrl, onerror := false } else el

/-- The display fragment produced for one product: the image element
(freshly armed) and the alt/label text. -/
structure Fragment where
  img : ImgElement
  alt : String
deriving DecidableEq, Repr

/-- Project one product to its display fragment, per the source's
`productCard.innerHTML` template. -/
def renderProduct (product : Product) : Fragment :=
  { img := { src := resolveImageUrl product, onerror := true }
  , alt := displayName product }

/-- Modelled from the spec: the full body of `renderProducts` is elided
in the fragment (only the per-product image resolution and template are
shown).  Per the spec it projects the collection — restricted to the
products whose `categoryId` matches the filter when the filter is
non-empty, the whole collection otherwise — to fragments in collection
order. -/
def renderProducts (products : List Product) (categoryFilter : String) : List Fragment :=
  (if categoryFilter = "" then products
   else products.filter (fun p => p.categoryId == categoryFilter)).map renderProduct

/-- The target display surface; rendering replaces its contents wholesale. -/
structure Display where
  frags : List Fragment
deriving DecidableEq, Repr

/-- Modelled from the spec: rendering replaces the rendered contents of
the display surface with the freshly produced fragments (a full
re-projection, not a diff). -/
def renderToDisplay (products : List Product) (categoryFilter : String)
    (_d : Display) : Display :=
  { frags := renderProducts products categoryFilter }

/-- The observable state touched by the event handlers: the collection,
the submit-control label, the log of emitted notifications
(message, severity) and the log of triggered re-renders (the filter each
used), plus the currently active category filter
(`filterCategorySelect.value`). -/
structure AppState where
  products : List Product
  saveBtnLabel : String
  notifications : List (String × String)
  renders : List String
  activeFilter : String
deriving DecidableEq, Repr

/-- The delete-button handler from the source, with the blocking
confirmation prompt injected as the boolean `confirmed`.  On an
affirmative answer it reassigns the collection to
`products.filter(p => p.id !== productId)`, emits one success
notification, and re-renders with the active filter; otherwise it does
nothing. -/
def handleDeleteIntent (s : AppState) (productId : String) (confirmed : Bool) : AppState :=
  if confirmed then
    { s with
      products := s.products.filter (fun p => p.id != productId)
    , notifications := s.notifications ++ [("Product deleted successfully!", "success")]
    , renders := s.renders ++ [s.activeFilter] }
  else s

/-- The edit-button handler: `products.find(p => p.id === productId)`,
then form population and the relabel to `"Update Product"`.  Modelled
from the spec for the lookup-miss path: the form-population logic between
the lookup and the relabel is elided in the fragment, and per the spec
the relabel takes effect only when the lookup succeeds; on a miss the
handler leaves all state unchanged. -/
def handleEditIntent (s : AppState) (productId : String) : AppState :=
  match s.products.find? (fun p => p.id == productId) with
  | some _ => { s with saveBtnLabel := "Update Product" }
  | none => s

/-- A small concrete state used by witnesses: the initial collection and
the initial `"Save"` label. -/
def sampleState : AppState :=
  { products := [sampleProduct]
  , saveBtnLabel := "Save"
  , notifications := []
  , renders := []
  , activeFilter := "" }

end Catalog

namespace Catalog

/-- C1: for every state and product identifier, a confirmed delete
replaces the collection by the filter-out of every product with that id,
emits exactly one success notification, and triggers exactly one
re-render using the currently active category filter. -/
theorem confirmed_delete_filters_notifies_rerenders (s : AppState) (productId : String) :
    (handleDeleteIntent s productId true).products
        = s.products.filter (fun p => p.id != productId)
    ∧ (handleDeleteIntent s productId true).notifications
        = s.notifications ++ [("Product deleted successfully!", "success")]
    ∧ (handleDeleteIntent s productId true).renders
        = s.renders ++ [s.activeFilter] :=
  ⟨rfl, rfl, rfl⟩

/-- C2: for every state and product identifier, a declined or dismissed
delete leaves the whole state unchanged — same collection, no
notification, no re-render. -/
theorem declined_delete_is_noop (s : AppState) (productId : String) :
    handleDeleteIntent s productId false = s :=
  rfl

/-- C3: for every state and every identifier matching none of the
collection's products, the edit intent leaves the whole state unchanged,
including the collection and the submit-control label. -/
theorem edit_intent_miss_is_noop (s : AppState) (productId : String)
    (h : ∀ p ∈ s.products, p.id ≠ productId) :
    handleEditIntent s productId = s := by
  have hf : s.products.find? (fun p => p.id == productId) = none := by
    rw [List.find?_eq_none]
    intro p hp
    simpa using h p hp
  simp [handleEditIntent, hf]

theorem edit_intent_miss_is_noop_witness :
    handleEditIntent sampleState "missing-id" = sampleState :=
  edit_intent_miss_is_noop sampleState "missing-id" (by decide)

/-- C4: the rendered image source is the product's `imageUrl` exactly
when that URL is present (truthy) and passes validation, and the
"No Image" placeholder otherwise; in particular `"not a url"` yields the
placeholder and a well-formed URL is used verbatim. -/
theorem image_source_policy :
    (∀ (p : Product) (u : String), p.imageUrl = some u → u ≠ "" →
        isValidUrl u = true → (renderProduct p).img.src = u)
    ∧ (∀ (p : Product) (u : String), p.imageUrl = some u →
        isValidUrl u = false → (renderProduct p).img.src = noImageUrl)
    ∧ (∀ p : Product, p.imageUrl = none → (renderProduct p).img.src = noImageUrl)
    ∧ (∀ p : Product, p.imageUrl = some "" → (renderProduct p).img.src = noImageUrl)
    ∧ isValidUrl "not a url" = false
    ∧ (∀ p : Product, p.imageUrl = some "not a url" →
        (renderProduct p).img.src = noImageUrl)
    ∧ isValidUrl "https://example.com/a.png" = true
    ∧ (∀ p : Product, p.imageUrl = some "https://example.com/a.png" →
        (renderProduct p).img.src = "https://example.com/a.png") := by
  refine ⟨?_, ?_, ?_, ?_, by decide, ?_, by decide, ?_⟩
  · intro p u h hu hv
    simp [renderProduct, resolveImageUrl, h, hu, hv]
  · intro p u h hv
    simp [renderProduct, resolveImageUrl, h, hv]
  · intro p h
    simp [renderProduct, resolveImageUrl, h]
  · intro p h
    simp [renderProduct, resolveImageUrl, h]
  · intro p h
    simp only [renderProduct, resolveImageUrl, h]
    decide
  · intro p h
    simp only [renderProduct, resolveImageUrl, h]
    decide

theorem image_source_policy_witness :
    (renderProduct
      { id := "p1", name := none, categoryId := "c", price := 0
      , imageUrl := some "https://example.com/a.png", attributes := [] }).img.src
      = "https://example.com/a.png" :=
  image_source_policy.2.2.2.2.2.2.2 _ rfl

/-- C5: every rendered image element starts with its error fallback
armed; when armed, a load failure substitutes the "Image Error"
placeholder and disarms the handler, after which a further failure
changes nothing — the substitution fires at most once. -/
theorem error_fallback_fires_at_most_once :
    (∀ p : Product, (renderProduct p).img.onerror = true)
    ∧ (∀ el : ImgElement, el.onerror = true →
        fireError el = { src := imageErrorUrl, onerror := false })
    ∧ (∀ el : ImgElement, el.onerror = false → fireError el = el)
    ∧ (∀ el : ImgElement, fireError (fireError el) = fireError el) := by
  refine ⟨fun p => rfl, ?_, ?_, ?_⟩
  · intro el h
    simp [fireError, h]
  · intro el h
    simp [fireError, h]
  · intro el
    by_cases h : el.onerror <;> simp [fireError, h]

theorem error_fallback_fires_at_most_once_witness :
    fireError { src := noImageUrl, onerror := true }
      = { src := imageErrorUrl, onerror := false } :=
  error_fallback_fires_at_most_once.2.1 { src := noImageUrl, onerror := true } rfl

/-- C6: with no filter the rendered fragments are the whole collection in
order (one fragment per product); with a non-empty filter `c` they are
exactly the products whose `categoryId` equals `c`, each exactly once, in
collection order. -/
theorem render_filter_semantics :
    (∀ products : List Product,
        renderProducts products "" = products.map renderProduct
        ∧ (renderProducts products "").length = products.length)
    ∧ (∀ (products : List Product) (c : String), c ≠ "" →
        renderProducts products c
          = (products.filter (fun p => p.categoryId == c)).map renderProduct
        ∧ (renderProducts products c).length
          = products.countP (fun p => p.categoryId == c)) := by
  constructor
  · intro products
    refine ⟨rfl, ?_⟩
    simp [renderProducts]
  · intro products c hc
    refine ⟨by simp [renderProducts, hc], ?_⟩
    simp [renderProducts, hc, List.countP_eq_length_filter]

theorem render_filter_semantics_witness :
    renderProducts [sampleProduct] "cat-dresses"
      = ([sampleProduct].filter (fun p => p.categoryId == "cat-dresses")).map renderProduct
    ∧ (renderProducts [sampleProduct] "cat-dresses").length
      = [sampleProduct].countP (fun p => p.categoryId == "cat-dresses") :=
  render_filter_semantics.2 [sampleProduct] "cat-dresses" (by decide)

/-- C7: the rendered alt/label text is the literal `"Product"` when the
product's name is absent or empty, and the product's name otherwise. -/
theorem alt_text_policy :
    (∀ p : Product, p.name = none → (renderProduct p).alt = "Product")
    ∧ (∀ p : Product, p.name = some "" → (renderProduct p).alt = "Product")
    ∧ (∀ (p : Product) (n : String), p.name = some n → n ≠ "" →
        (renderProduct p).alt = n) := by
  refine ⟨?_, ?_, ?_⟩
  · intro p h
    simp [renderProduct, displayName, h]
  · intro p h
    simp [renderProduct, displayName, h]
  · intro p n h hn
    simp [renderProduct, displayName, h, hn]

theorem alt_text_policy_witness :
    (renderProduct
      { id := "p2", name := none, categoryId := "c", price := 0
      , imageUrl := none, attributes := [] }).alt = "Product" :=
  alt_text_policy.1 _ rfl

/-- C8: URL validation is total — on every input it returns a boolean
rather than raising — and it returns `true` exactly when the input parses
as a structurally well-formed URL, `false` exactly when the parse
fails. -/
theorem isValidUrl_total_and_structural :
    ∀ s : String,
      (isValidUrl s = true ∨ isValidUrl s = false)
      ∧ (isValidUrl s = true ↔ ∃ u, parseUrl s = some u)
      ∧ (isValidUrl s = false ↔ parseUrl s = none) := by
  intro s
  cases h : parseUrl s with
  | none => simp [isValidUrl, h]
  | some u => simp [isValidUrl, h]

/-- C9: rendering is deterministic in the collection and the filter, and
replaces the display surface wholesale, so two successive renders with no
intervening mutation leave the display in the same state and produce
structurally identical fragment sequences. -/
theorem render_deterministic_idempotent
    (products : List Product) (c : String) (d : Display) :
    renderToDisplay products c (renderToDisplay products c d)
        = renderToDisplay products c d
    ∧ (renderToDisplay products c (renderToDisplay products c d)).frags
        = (renderToDisplay products c d).frags :=
  ⟨rfl, rfl⟩

/-- C10: a confirmed delete with an identifier matching no product leaves
the collection exactly as it was (order and contents preserved), yet
still emits the success notification and still triggers the re-render —
both are unconditional on the affirmative branch. -/
theorem confirmed_delete_of_absent_id (s : AppState) (productId : String)
    (h : ∀ p ∈ s.products, p.id ≠ productId) :
    (handleDeleteIntent s productId true).products = s.products
    ∧ (handleDeleteIntent s productId true).notifications
        = s.notifications ++ [("Product deleted successfully!", "success")]
    ∧ (handleDeleteIntent s productId true).renders
        = s.renders ++ [s.activeFilter] := by
  refine ⟨?_, rfl, rfl⟩
  show s.products.filter (fun p => p.id != productId) = s.products
  rw [List.filter_eq_self]
  intro p hp
  simpa using h p hp

theorem confirmed_delete_of_absent_id_witness :
    (handleDeleteIntent sampleState "no-such-id" true).products = sampleState.products
    ∧ (handleDeleteIntent sampleState "no-such-id" true).notifications
        = sampleState.notifications ++ [("Product deleted successfully!", "success")]
    ∧ (handleDeleteIntent sampleState "no-such-id" true).renders
        = sampleState.renders ++ [sampleState.activeFilter] :=
  confirmed_delete_of_absent_id sampleState "no-such-id" (by decide)

end Catalog
